import Mathlib

/-!
Verification of the kegtui navigation/rendering controller.

This file is a shallow embedding, in Lean 4, of the navigation subsystem of
the kegtui repository:

* `src/src/view.rs` — identifiers, menu items, navs, the `NavContext`
  registry and its navigation stack;
* `src/core/src/app.rs` — the `App` controller state, its key-event handler,
  menu-action execution, navigation-action execution, view loading, the
  render tick of `App::run`, and the background worker of `spawn_worker`;
* `src/core/src/views/kegs.rs` — the `KegsView` content view;
* `src/core/src/keg.rs` — `Keg` and the fallible hydration
  `CurrentKeg::try_from`.

Rust `usize` values are modelled as `Nat` (`saturating_sub` is `Nat`
subtraction).  A Rust `panic!` / `unwrap` / out-of-bounds index is modelled by
returning `none` from an `Option`-valued embedding; a recoverable
`Result::Err` that the source propagates with `?` is modelled explicitly.
Filesystem and terminal effects are parameters of the embedding.
-/

namespace Kegtui

/-- Identifier of a registered view: a dense index or a stable name
(`view.rs`, `enum ViewID`). -/
inductive ViewID where
  | index (i : Nat)
  | named (name : String)
deriving DecidableEq, Repr

/-- Identifier of a registered nav (`view.rs`, `enum NavID`). -/
inductive NavID where
  | index (i : Nat)
  | named (name : String)
deriving DecidableEq, Repr

/-- Navigation action attached to a menu item or returned by a click
(`view.rs`, `enum NavAction`). -/
inductive NavAction where
  | pop
  | push (id : NavID)
deriving DecidableEq, Repr

/-- Action of a menu item (`view.rs` / the core crate's `MenuItemAction`):
navigate, load a view, or invoke an external collaborator.  The external
collaborator function pointer is abstracted as a tag into an environment
table supplied to the embedding. -/
inductive MenuItemAction where
  | navAction (action : NavAction)
  | loadView (id : ViewID)
  | external (tag : Nat)
deriving DecidableEq, Repr

/-- One entry of a nav menu (`view.rs`, `struct MenuItem`). -/
structure MenuItem where
  name : String
  is_default : Bool
  action : MenuItemAction
deriving DecidableEq, Repr

/-- `MenuItem::new`: the default flag starts out `false`. -/
def MenuItem.new (name : String) (action : MenuItemAction) : MenuItem :=
  { name := name, is_default := false, action := action }

/-- `MenuItem::default`: the builder that flags an item as default. -/
def MenuItem.markDefault (item : MenuItem) : MenuItem :=
  { item with is_default := true }

/-- A registered nav: its menu and the precomputed default item index
(`view.rs`, `struct Nav`). -/
structure Nav where
  menu : List MenuItem
  default_item : Nat
deriving DecidableEq, Repr

/-- The registry plus navigation stack (`view.rs`, `struct NavContext`).
The `Vec<&dyn View>` of trait objects is modelled by its length (`views`)
together with the name table; view behaviour itself is a parameter of the
controller embedding.  The two `HashMap`s are modelled as association lists
where an insert prepends, so that the most recent insert wins on lookup,
matching `HashMap::insert` overwriting semantics.  The stack is a `List`
whose last element is the top (`Vec::push` appends). -/
structure NavContext where
  views : Nat
  named_view_ids : List (String × Nat)
  navs : List Nav
  named_nav_ids : List (String × Nat)
  stack : List NavID
deriving DecidableEq, Repr

/-- `NavContext::default()`. -/
def NavContext.empty : NavContext :=
  { views := 0, named_view_ids := [], navs := [], named_nav_ids := [],
    stack := [] }

/-- `NavContext::view`: appends the view, records its name, and returns the
index identifier. -/
def NavContext.view (ctx : NavContext) (name : String) :
    NavContext × ViewID :=
  ({ ctx with
      views := ctx.views + 1,
      named_view_ids := (name, ctx.views) :: ctx.named_view_ids },
   ViewID.index ctx.views)

/-- The `default_item` computation of `NavContext::nav`: the index of the
first menu item whose `is_default` flag is set, else `0`
(`menu.iter().enumerate().find(|(_, item)| item.is_default)`). -/
def defaultItemOf (menu : List MenuItem) : Nat :=
  ((menu.enum.find? fun p => p.2.is_default).map Prod.fst).getD 0

/-- `NavContext::nav`: collects the items, computes the default index,
asserts non-emptiness (`assert!(!menu.is_empty())`, a panic — hence `none` —
on an empty list), appends the nav, records its name and returns the index
identifier. -/
def NavContext.nav (ctx : NavContext) (name : String)
    (menu : List MenuItem) : Option (NavContext × NavID) :=
  let default_item := defaultItemOf menu
  if menu.isEmpty then none
  else
    some
      ({ ctx with
          navs := ctx.navs ++ [{ menu := menu, default_item := default_item }],
          named_nav_ids := (name, ctx.navs.length) :: ctx.named_nav_ids },
       NavID.index ctx.navs.length)

/-- `NavContext::push_nav`: `self.stack.push(nav)`. -/
def NavContext.push_nav (ctx : NavContext) (nav : NavID) : NavContext :=
  { ctx with stack := ctx.stack ++ [nav] }

/-- `NavContext::pop_nav`: `let _ = self.stack.pop();` — removes the top if
present, no effect (and no panic) on an empty stack. -/
def NavContext.pop_nav (ctx : NavContext) : NavContext :=
  { ctx with stack := ctx.stack.dropLast }

/-- `NavContext::top_nav`: `self.stack.last().copied()`. -/
def NavContext.top_nav (ctx : NavContext) : Option NavID :=
  ctx.stack.getLast?

/-- Association lookup standing for `HashMap::get` (most recent insert
first). -/
def lookupName (table : List (String × Nat)) (name : String) : Option Nat :=
  (table.find? fun p => p.1 == name).map Prod.snd

/-- `NavContext::get_view_index`: an index identifier resolves to itself;
a name goes through the hash table and the source calls `.unwrap()` on the
result, a panic — hence `none` — for a name that was never registered. -/
def NavContext.get_view_index (ctx : NavContext) (id : ViewID) :
    Option Nat :=
  match id with
  | ViewID.index i => some i
  | ViewID.named name => lookupName ctx.named_view_ids name

/-- `NavContext::get_nav_index`: same shape as `get_view_index`. -/
def NavContext.get_nav_index (ctx : NavContext) (id : NavID) : Option Nat :=
  match id with
  | NavID.index i => some i
  | NavID.named name => lookupName ctx.named_nav_ids name

/-- `get_nav` composed with the `Vec` indexing `&self.navs[index]`, which
panics — hence `none` — when the index is out of range. -/
def NavContext.get_nav (ctx : NavContext) (id : NavID) : Option Nav :=
  (ctx.get_nav_index id).bind fun i => ctx.navs.get? i

/-- A discovered keg (`core/src/keg.rs`, `struct Keg`); paths are modelled
as strings. -/
structure Keg where
  name : String
  enclosing_location : String
  config_file : String
  wineskin_launcher : String
  c_drive : String
  log_directory : String
  winetricks_logfile : String
  wine_prefix : String
deriving DecidableEq, Repr

/-- The parsed `Info.plist` of a keg (`core/src/keg_plist.rs`).  Its field
mapping is out of the specified core (spec §1); only the success or failure
of parsing it matters to the controller, so it is carried opaquely. -/
structure KegPlist where
  raw : String
deriving DecidableEq, Repr

/-- The hydrated detail record of the selected keg (`core/src/keg.rs`,
`struct CurrentKeg`). -/
structure CurrentKeg where
  name : String
  wineskin_launcher : String
  c_drive : String
  plist : KegPlist
  config_file : String
  log_directory : String
  winetricks_logfile : String
  wine_prefix : String
deriving DecidableEq, Repr

/-- `CurrentKeg::try_from(&Keg)`: copies the keg fields and parses the plist
file, whose reader (`plist::from_file`) is the filesystem parameter
`plist_from_file`; a parse failure propagates as an error. -/
def CurrentKeg.try_from (plist_from_file : String → Except String KegPlist)
    (keg : Keg) : Except String CurrentKeg :=
  match plist_from_file keg.config_file with
  | Except.error e => Except.error e
  | Except.ok parsed =>
      Except.ok
        { name := keg.name,
          wineskin_launcher := keg.wineskin_launcher,
          c_drive := keg.c_drive,
          plist := parsed,
          config_file := keg.config_file,
          log_directory := keg.log_directory,
          winetricks_logfile := keg.winetricks_logfile,
          wine_prefix := keg.wine_prefix }

/-- An engine bundle (`core/src/keg.rs`, `struct Engine`). -/
structure Engine where
  path : String
deriving DecidableEq, Repr

/-- A wrapper template (`core/src/keg.rs`, `struct Wrapper`). -/
structure Wrapper where
  path : String
deriving DecidableEq, Repr

/-- The shared snapshot written by the background worker
(`core/src/app.rs`, `struct AsyncState`). -/
structure AsyncState where
  kegs : List Keg
  engines : List Engine
  wrappers : List Wrapper
deriving DecidableEq, Repr

/-- `AsyncState::default()`: all three lists empty. -/
def AsyncState.empty : AsyncState :=
  { kegs := [], engines := [], wrappers := [] }

/-- The app configuration (`core/src/app_config.rs`, `struct AppConfig`);
paths are strings, defaults are irrelevant here. -/
structure AppConfig where
  keg_search_paths : List String
  engine_search_paths : List String
  wrapper_search_paths : List String
  editor : String
  explorer : String
deriving DecidableEq, Repr

/-- The controller focus (`core/src/app.rs`, `enum Focus`); `menu` is the
`#[default]` variant. -/
inductive Focus where
  | menu
  | content
deriving DecidableEq, Repr

/-- The controller state (`core/src/app.rs`, `struct App`). -/
structure App where
  exit : Bool
  focus : Focus
  menu_state : Nat
  current_view : Option ViewID
  clickables_state : Nat
  current_keg : Option CurrentKeg
  config : AppConfig
  show_keybinds_modal : Bool
deriving DecidableEq, Repr

/-- `App::new`: every field but the configuration reference defaults. -/
def App.new (config : AppConfig) : App :=
  { exit := false, focus := Focus.menu, menu_state := 0,
    current_view := none, clickables_state := 0, current_keg := none,
    config := config, show_keybinds_modal := false }

/-- `App::interaction_state`. -/
def App.interaction_state (app : App) : Nat :=
  app.clickables_state

/-- A view's declared input-handling mode (the core crate's
`ViewInteractivity`, as dispatched on in `core/src/app.rs` and produced in
`core/src/views/kegs.rs`). -/
inductive ViewInteractivity where
  | none
  | scrollable
  | clickables (count : Nat)
deriving DecidableEq, Repr

/-- The key codes the controller dispatches on (`crossterm`'s `KeyCode`,
restricted to the arms of `App::handle_key_event`; `other` covers the `_`
arm). -/
inductive KeyCode where
  | char (c : Char)
  | esc
  | up
  | down
  | left
  | right
  | enter
  | other
deriving DecidableEq, Repr

/-- Behaviour of one registered view as the controller sees it (the
`&dyn View` trait object).  `interactivity` takes the app and snapshot by
shared reference and may fail (`Result`).  `click` takes the app by mutable
reference: its result is `none` for a panic inside the view, or the app as
the view left it together with either the propagated error or the returned
optional navigation action. -/
structure ViewImpl where
  interactivity : App → AsyncState → Except String ViewInteractivity
  click : App → AsyncState → Nat →
    Option (App × Except String (Option NavAction))

/-- A view that keeps the trait's default no-op behaviour (no
interactivity, a click that does nothing and returns no action), as the
credits view does. -/
def trivialView : ViewImpl :=
  { interactivity := fun _ _ => Except.ok ViewInteractivity.none,
    click := fun app _ _ => some (app, Except.ok none) }

/-- Result of one controller step that returned (rather than panicked):
the app and context as left behind, and `error = some e` when the source
propagated `Err(e)` to the caller with `?`. -/
structure StepResult where
  app : App
  ctx : NavContext
  error : Option String
deriving Repr

/-- Convenience for a step that succeeded with no error. -/
def StepResult.ok (app : App) (ctx : NavContext) : StepResult :=
  { app := app, ctx := ctx, error := none }

/-- `App::execute_nav_action`: pops or pushes, then unconditionally sets
focus to the menu, clears the current view, and re-reads the new top of the
stack with `.unwrap()` to select its default item.  The `unwrap` (a pop
that emptied the stack) and an unresolvable nav id are panics, modelled as
`none`.  Note the interaction cursor `clickables_state` is not touched.
The stack mutation (the `match nav_action` at the head of the source
function) is split out as `apply_nav_action`. -/
def NavContext.apply_nav_action (ctx : NavContext) :
    NavAction → NavContext
  | NavAction.pop => ctx.pop_nav
  | NavAction.push nav_id => ctx.push_nav nav_id

/-- Body of `App::execute_nav_action` after the stack mutation. -/
def App.execute_nav_action (app : App) (ctx : NavContext)
    (nav_action : NavAction) : Option (App × NavContext) :=
  let ctx2 : NavContext := ctx.apply_nav_action nav_action
  match ctx2.top_nav with
  | none => none
  | some top =>
      match ctx2.get_nav top with
      | none => none
      | some nav =>
          some
            ({ app with
                focus := Focus.menu,
                current_view := none,
                menu_state := nav.default_item },
             ctx2)

/-- `App::load_view`: sets the current view, focuses the content, and
resets the interaction cursor. -/
def App.load_view (app : App) (view_id : ViewID) : App :=
  { app with
      current_view := some view_id,
      focus := Focus.content,
      clickables_state := 0 }

/-- `App::exit`. -/
def App.setExit (app : App) : App :=
  { app with exit := true }

/-- `App::execute_menu_action`.  `ext` is the table of external
collaborator functions (each takes the app by mutable reference and may
fail); the terminal mode switches around the call are effects outside the
state machine. -/
def App.execute_menu_action (ext : Nat → App → AsyncState → App × Option String)
    (app : App) (ctx : NavContext) (st : AsyncState)
    (menu_action : MenuItemAction) : Option StepResult :=
  match menu_action with
  | MenuItemAction.navAction nav_action =>
      match app.execute_nav_action ctx nav_action with
      | none => none
      | some (app2, ctx2) => some (StepResult.ok app2 ctx2)
  | MenuItemAction.loadView view_id =>
      some (StepResult.ok (app.load_view view_id) ctx)
  | MenuItemAction.external tag =>
      let (app2, err) := ext tag app st
      some { app := app2, ctx := ctx, error := err }

/-- The tag reserved in the external-collaborator table for
`inspect_terminal`, which the `z` key invokes directly. -/
def inspect_terminal_tag : Nat := 0

/-- `App::handle_key_event`, faithful to the arm order and the eager
evaluation of the source: when the keybinds modal is shown only `Esc` and
`?` (which hide it) are handled and everything else is swallowed;
otherwise the top of the stack is dereferenced with `.unwrap()` (panic —
`none` — on an empty stack), the nav is resolved, and the highlighted menu
item is indexed (`&menu[self.menu_state]`, a panic when out of range)
before dispatching on the key.  `gv` stands for `context.get_view` on the
registered views. -/
def App.handle_key_event (gv : ViewID → ViewImpl)
    (ext : Nat → App → AsyncState → App × Option String)
    (app : App) (ctx : NavContext) (key : KeyCode) (st : AsyncState) :
    Option StepResult :=
  if app.show_keybinds_modal then
    if key = KeyCode.esc ∨ key = KeyCode.char '?' then
      some (StepResult.ok { app with show_keybinds_modal := false } ctx)
    else
      some (StepResult.ok app ctx)
  else
    match ctx.top_nav with
    | none => none
    | some current_nav =>
        match ctx.get_nav current_nav with
        | none => none
        | some nav =>
            let menu := nav.menu
            match menu.get? app.menu_state with
            | none => none
            | some current_menu_item =>
                if key = KeyCode.char 'q' then
                  some (StepResult.ok app.setExit ctx)
                else if key = KeyCode.esc then
                  some (StepResult.ok { app with focus := Focus.menu } ctx)
                else if key = KeyCode.char '?' then
                  some (StepResult.ok
                    { app with show_keybinds_modal := true } ctx)
                else if key = KeyCode.up ∨ key = KeyCode.char 'k' then
                  match app.focus with
                  | Focus.menu =>
                      some (StepResult.ok
                        { app with menu_state := app.menu_state - 1 } ctx)
                  | Focus.content =>
                      match app.current_view with
                      | none => none
                      | some view_id =>
                          match (gv view_id).interactivity app st with
                          | Except.error e =>
                              some { app := app, ctx := ctx, error := some e }
                          | Except.ok ViewInteractivity.none =>
                              some (StepResult.ok app ctx)
                          | Except.ok ViewInteractivity.scrollable =>
                              some (StepResult.ok
                                { app with
                                    clickables_state :=
                                      app.clickables_state - 3 } ctx)
                          | Except.ok (ViewInteractivity.clickables _) =>
                              some (StepResult.ok
                                { app with
                                    clickables_state :=
                                      app.clickables_state - 1 } ctx)
                else if key = KeyCode.down ∨ key = KeyCode.char 'j' then
                  match app.focus with
                  | Focus.menu =>
                      if app.menu_state + 1 < menu.length then
                        some (StepResult.ok
                          { app with menu_state := app.menu_state + 1 } ctx)
                      else
                        some (StepResult.ok app ctx)
                  | Focus.content =>
                      match app.current_view with
                      | none => none
                      | some view_id =>
                          match (gv view_id).interactivity app st with
                          | Except.error e =>
                              some { app := app, ctx := ctx, error := some e }
                          | Except.ok ViewInteractivity.none =>
                              some (StepResult.ok app ctx)
                          | Except.ok ViewInteractivity.scrollable =>
                              some (StepResult.ok
                                { app with
                                    clickables_state :=
                                      app.clickables_state + 3 } ctx)
                          | Except.ok (ViewInteractivity.clickables count) =>
                              if app.clickables_state + 1 < count then
                                some (StepResult.ok
                                  { app with
                                      clickables_state :=
                                        app.clickables_state + 1 } ctx)
                              else
                                some (StepResult.ok app ctx)
                else if key = KeyCode.left ∨ key = KeyCode.char 'h' then
                  some (StepResult.ok { app with focus := Focus.menu } ctx)
                else if key = KeyCode.right ∨ key = KeyCode.char 'l' then
                  if app.focus = Focus.menu then
                    app.execute_menu_action ext ctx st current_menu_item.action
                  else
                    some (StepResult.ok app ctx)
                else if key = KeyCode.enter then
                  match app.focus with
                  | Focus.menu =>
                      app.execute_menu_action ext ctx st
                        current_menu_item.action
                  | Focus.content =>
                      match app.current_view with
                      | none => none
                      | some view_id =>
                          match (gv view_id).click app st
                              app.clickables_state with
                          | none => none
                          | some (app2, Except.error e) =>
                              some { app := app2, ctx := ctx, error := some e }
                          | some (app2, Except.ok none) =>
                              some (StepResult.ok app2 ctx)
                          | some (app2, Except.ok (some nav_action)) =>
                              match app2.execute_nav_action ctx nav_action with
                              | none => none
                              | some (app3, ctx3) =>
                                  some (StepResult.ok app3 ctx3)
                else if key = KeyCode.char 'z' then
                  app.execute_menu_action ext ctx st
                    (MenuItemAction.external inspect_terminal_tag)
                else
                  some (StepResult.ok app ctx)

/-- `KegsView::interactivity` (`core/src/views/kegs.rs`): no interactivity
while no kegs are discovered, otherwise one clickable per discovered keg. -/
def kegsViewInteractivity (_app : App) (st : AsyncState) :
    Except String ViewInteractivity :=
  Except.ok
    (if st.kegs.isEmpty then ViewInteractivity.none
     else ViewInteractivity.clickables st.kegs.length)

/-- `KegsView::click` (`core/src/views/kegs.rs`): with kegs present it
indexes `state.kegs[index]` (a panic — `none` — when the interaction cursor
is out of range), hydrates the detail record with `CurrentKeg::try_from`
(whose failure propagates with `?`, before `current_keg` is assigned), sets
`app.current_keg` and asks to push the nav named "keg"; with no kegs it
does nothing. -/
def kegsViewClick (plist_from_file : String → Except String KegPlist)
    (app : App) (st : AsyncState) (index : Nat) :
    Option (App × Except String (Option NavAction)) :=
  if st.kegs.isEmpty then some (app, Except.ok none)
  else
    match st.kegs.get? index with
    | none => none
    | some keg =>
        match CurrentKeg.try_from plist_from_file keg with
        | Except.error e => some (app, Except.error e)
        | Except.ok hydrated =>
            some ({ app with current_keg := some hydrated },
              Except.ok (some (NavAction.push (NavID.named "keg"))))

/-- The kegs view as a `ViewImpl`, over a given plist reader. -/
def kegsView (plist_from_file : String → Except String KegPlist) : ViewImpl :=
  { interactivity := kegsViewInteractivity,
    click := kegsViewClick plist_from_file }

/-- What `App::draw` put in the menu/content sections of the frame:
either the current nav's menu (with or without delegated view content), or
— with an empty navigation stack — a cleared content area and no menu. -/
inductive DrawOutcome where
  | drewMenu (menu : List MenuItem) (drewViewContent : Bool)
  | clearedContentArea
deriving Repr

/-- `App::draw` (`core/src/app.rs`): when the stack has a top, the nav is
resolved (an unresolvable id is a panic, `none`) and the menu drawn, then
`draw_content` delegates to the current view when one is loaded — whose
failure propagates (`Except.error`); with an empty stack the content area
is simply cleared, totally, touching no view.  `dv` stands for the active
view's `draw_content` effect. -/
def App.draw (dv : ViewID → Except String Unit) (app : App)
    (ctx : NavContext) : Option (Except String DrawOutcome) :=
  match ctx.top_nav with
  | none => some (Except.ok DrawOutcome.clearedContentArea)
  | some current_nav =>
      match ctx.get_nav current_nav with
      | none => none
      | some nav =>
          match app.current_view with
          | none => some (Except.ok (DrawOutcome.drewMenu nav.menu false))
          | some view_id =>
              match dv view_id with
              | Except.error e => some (Except.error e)
              | Except.ok _ =>
                  some (Except.ok (DrawOutcome.drewMenu nav.menu true))

/-- Modelled from the spec: the production-build behaviour the spec claims
for resolving a name that was never registered — "defined as a not-found
error (rather than a crash) in production builds".  The corresponding code
is `NavContext::get_view_index`/`get_nav_index`, which this definition is
compared against. -/
def claimedProductionNameResolution (table : List (String × Nat))
    (name : String) : Except String Nat :=
  match lookupName table name with
  | some i => Except.ok i
  | none => Except.error "not found"

/-- State of the `RwLock<AsyncState>` at the moment a render tick reaches
`state.read()`. -/
inductive LockState where
  | free (st : AsyncState)
  | writerHeld
  | poisoned
deriving Repr

/-- What one render tick of `App::run` does about the shared snapshot. -/
inductive TickBehavior where
  | rendersAndHandlesInput (st : AsyncState)
  | blocksUntilWriterReleases
  | skipsRenderAndInput
  | skipsRenderStillHandlesInput
deriving DecidableEq, Repr

/-- The snapshot access of one render tick of `App::run`
(`core/src/app.rs` line 167): `if let Ok(state) = state.read()` uses the
blocking `RwLock::read` — while the writer holds the lock the tick blocks
until the writer releases it; a successful read draws the frame and then
handles input; an `Err` (a poisoned lock) silently skips both the draw and
the input handling for this tick. -/
def runTickSnapshotAccess : LockState → TickBehavior
  | LockState.free st => TickBehavior.rendersAndHandlesInput st
  | LockState.writerHeld => TickBehavior.blocksUntilWriterReleases
  | LockState.poisoned => TickBehavior.skipsRenderAndInput

/-- Modelled from the spec: the claimed tick discipline, "attempt a
non-blocking read of the Shared Snapshot (if momentarily locked for
writing, skip this tick's re-render of data-dependent content but still
process input)" — the corresponding code is `App::run`, which this
definition is compared against. -/
def claimedTickSnapshotAccess : LockState → TickBehavior
  | LockState.free st => TickBehavior.rendersAndHandlesInput st
  | LockState.writerHeld => TickBehavior.skipsRenderStillHandlesInput
  | LockState.poisoned => TickBehavior.skipsRenderStillHandlesInput

/-- Availability of the `RwLock` write side when the worker publishes. -/
inductive WriteLockState where
  | available
  | readerHeld
deriving DecidableEq, Repr

/-- The publish step of the background worker (`spawn_worker`,
`core/src/app.rs` lines 587-591): `if let Ok(mut lock) =
async_state.try_write()` — a non-blocking attempt that replaces the
snapshot wholesale when the lock is free and skips publishing this cycle
otherwise. -/
def workerPublish (lock : WriteLockState) (old fresh : AsyncState) :
    AsyncState :=
  match lock with
  | WriteLockState.available => fresh
  | WriteLockState.readerHeld => old

/-! Concrete fixtures used by witnesses and counterexamples. -/

/-- A small configuration. -/
def cfg0 : AppConfig :=
  { keg_search_paths := ["~/Applications/Kegs"],
    engine_search_paths := [], wrapper_search_paths := [],
    editor := "vi", explorer := "open" }

/-- A freshly constructed controller. -/
def app0 : App := App.new cfg0

/-- The "main" nav menu as registered in `core/src/main.rs` (external
collaborators numbered in registration order; no item is flagged
default). -/
def mainMenu : List MenuItem :=
  [MenuItem.new "Kegs" (MenuItemAction.loadView (ViewID.index 0)),
   MenuItem.new "Create Keg" (MenuItemAction.external 1),
   MenuItem.new "Clear Winetricks Cache" (MenuItemAction.external 2),
   MenuItem.new "Setup Wizard" (MenuItemAction.external 3),
   MenuItem.new "Credits" (MenuItemAction.loadView (ViewID.index 1))]

/-- The "keg" nav menu as registered in `core/src/main.rs`: note that both
"Launch" (position 1) and "Kill Processes" (position 5) are flagged
default. -/
def kegMenu : List MenuItem :=
  [MenuItem.new "Back" (MenuItemAction.navAction NavAction.pop),
   (MenuItem.new "Launch" (MenuItemAction.external 4)).markDefault,
   MenuItem.new "Winetricks" (MenuItemAction.external 5),
   MenuItem.new "Open C Drive" (MenuItemAction.external 6),
   MenuItem.new "Edit Config" (MenuItemAction.external 7),
   (MenuItem.new "Kill Processes" (MenuItemAction.external 8)).markDefault]

/-- A one-item nav. -/
def nav0 : Nav :=
  { menu := [MenuItem.new "Kegs" (MenuItemAction.loadView (ViewID.index 0))],
    default_item := 0 }

/-- A context holding `nav0` with a singleton navigation stack. -/
def ctx1 : NavContext :=
  { NavContext.empty with navs := [nav0], stack := [NavID.index 0] }

/-- An external-collaborator table where every call succeeds without
touching the app. -/
def ext0 : Nat → App → AsyncState → App × Option String :=
  fun _ app _ => (app, none)

/-- A view table where every id is the no-op view. -/
def gv0 : ViewID → ViewImpl := fun _ => trivialView

/-- The empty snapshot. -/
def st0 : AsyncState := AsyncState.empty

/-! Claim C6. -/

lemma NavContext.pop_push (ctx : NavContext) (id : NavID) :
    (ctx.push_nav id).pop_nav = ctx := by
  cases ctx
  simp [NavContext.push_nav, NavContext.pop_nav]

lemma NavContext.pops_cancel_pushes (ctx : NavContext) (ids : List NavID) :
    NavContext.pop_nav^[ids.length] (ids.foldl NavContext.push_nav ctx) =
      ctx := by
  induction ids using List.reverseRecOn with
  | nil => simp
  | append_singleton ids id ih =>
      have hlen : (ids ++ [id]).length = ids.length + 1 := by simp
      rw [hlen, List.foldl_append, Function.iterate_succ_apply, List.foldl_cons,
        List.foldl_nil, NavContext.pop_push]
      exact ih

/-- C6: popping an empty navigation stack does not panic, leaves the
context unchanged and leaves `top_nav` as `none`; and any `N` pushes
followed by `N` pops restore the context — in particular `top_nav` — to
its value before the first push. -/
theorem C6_stack_discipline :
    (∀ ctx : NavContext, ctx.stack = [] →
      ctx.pop_nav = ctx ∧ ctx.pop_nav.top_nav = none) ∧
    ∀ (ctx : NavContext) (ids : List NavID),
      NavContext.pop_nav^[ids.length] (ids.foldl NavContext.push_nav ctx) =
          ctx ∧
        (NavContext.pop_nav^[ids.length]
            (ids.foldl NavContext.push_nav ctx)).top_nav =
          ctx.top_nav := by
  constructor
  · intro ctx h
    have hpop : ctx.pop_nav = ctx := by
      cases ctx
      simp only [NavContext.pop_nav, NavContext.mk.injEq] at h ⊢
      simp [h]
    refine ⟨hpop, ?_⟩
    rw [hpop]
    cases ctx
    simp only [NavContext.top_nav] at h ⊢
    simp [h]
  · intro ctx ids
    have h := NavContext.pops_cancel_pushes ctx ids
    exact ⟨h, by rw [h]⟩

/-- C6 witness: a pop on an empty stack, and two pushes followed by two
pops on a singleton stack. -/
theorem C6_stack_discipline_witness :
    (NavContext.empty.pop_nav = NavContext.empty ∧
      NavContext.empty.pop_nav.top_nav = none) ∧
    NavContext.pop_nav^[2]
        (([NavID.index 4, NavID.named "keg"]).foldl NavContext.push_nav
          ctx1) =
        ctx1 ∧
      (NavContext.pop_nav^[2]
          (([NavID.index 4, NavID.named "keg"]).foldl NavContext.push_nav
            ctx1)).top_nav =
        ctx1.top_nav :=
  ⟨C6_stack_discipline.1 NavContext.empty rfl,
   C6_stack_discipline.2 ctx1 [NavID.index 4, NavID.named "keg"]⟩

/-! Claim C9. -/

/-- C9 counterexample: the claim says an unresolvable name is "fatal in
debug, defined as a not-found error in production builds".  The source
resolves names with `self.named_nav_ids.get(name).copied().unwrap()` — an
unconditional `unwrap`, identical in every build profile — so resolving the
never-registered name "ghost" panics (`none`), where the claimed
production behaviour is the defined error value; the code has no
build-dependent path at all. -/
theorem C9_counterexample :
    NavContext.empty.get_nav_index (NavID.named "ghost") = none ∧
    NavContext.empty.get_view_index (ViewID.named "ghost") = none ∧
    claimedProductionNameResolution NavContext.empty.named_nav_ids "ghost" =
      Except.error "not found" :=
  ⟨rfl, rfl, rfl⟩

/-- C9 amended: resolving an index identifier is a direct O(1) return of
the index; resolving a registered name returns its most recently
registered index; resolving a name that was never registered panics (the
`unwrap`) in every build — there is no production-build "not found" error
path. -/
theorem C9_identifier_resolution (ctx : NavContext) (i : Nat)
    (name : String) :
    ctx.get_nav_index (NavID.index i) = some i ∧
    ctx.get_view_index (ViewID.index i) = some i ∧
    (lookupName ctx.named_nav_ids name = none →
      ctx.get_nav_index (NavID.named name) = none) ∧
    (lookupName ctx.named_view_ids name = none →
      ctx.get_view_index (ViewID.named name) = none) ∧
    (∀ k, lookupName ctx.named_nav_ids name = some k →
      ctx.get_nav_index (NavID.named name) = some k) := by
  refine ⟨rfl, rfl, ?_, ?_, ?_⟩
  · intro h
    simpa [NavContext.get_nav_index] using h
  · intro h
    simpa [NavContext.get_view_index] using h
  · intro k h
    simpa [NavContext.get_nav_index] using h

/-- C9 witness: resolution on a context with one registered nav name. -/
theorem C9_identifier_resolution_witness :
    (ctx1.get_nav_index (NavID.index 2) = some 2 ∧
      ctx1.get_view_index (ViewID.index 2) = some 2 ∧
      (lookupName ctx1.named_nav_ids "ghost" = none →
        ctx1.get_nav_index (NavID.named "ghost") = none) ∧
      (lookupName ctx1.named_view_ids "ghost" = none →
        ctx1.get_view_index (ViewID.named "ghost") = none) ∧
      (∀ k, lookupName ctx1.named_nav_ids "ghost" = some k →
        ctx1.get_nav_index (NavID.named "ghost") = some k)) ∧
    lookupName ctx1.named_nav_ids "ghost" = none :=
  ⟨C9_identifier_resolution ctx1 2 "ghost", rfl⟩

/-! Claim C5. -/

lemma find?_enumFrom_of_no_default (menu : List MenuItem) (k : Nat)
    (h : ∀ item ∈ menu, item.is_default = false) :
    ((List.enumFrom k menu).find? fun p => p.2.is_default) = none := by
  induction menu generalizing k with
  | nil => rfl
  | cons head tail ih =>
      have hhead : head.is_default = false := h head (by simp)
      rw [List.enumFrom]
      rw [List.find?_cons_of_neg _ (by simpa using hhead)]
      exact ih (k + 1) fun item hm => h item (by simp [hm])

lemma find?_enumFrom_of_first_default (menu : List MenuItem) (k i : Nat)
    (hi : i < menu.length)
    (hflag : (menu.get ⟨i, hi⟩).is_default = true)
    (hbefore : ∀ j (hj : j < menu.length), j < i →
      (menu.get ⟨j, hj⟩).is_default = false) :
    ((List.enumFrom k menu).find? fun p => p.2.is_default) =
      some (k + i, menu.get ⟨i, hi⟩) := by
  induction menu generalizing k i with
  | nil => exact absurd hi (by simp)
  | cons head tail ih =>
      cases i with
      | zero =>
          rw [List.enumFrom]
          rw [List.find?_cons_of_pos _ (by simpa using hflag)]
          simp
      | succ i2 =>
          have hhead : head.is_default = false := by
            have := hbefore 0 (by simp) (Nat.succ_pos i2)
            simpa using this
          rw [List.enumFrom]
          rw [List.find?_cons_of_neg _ (by simpa using hhead)]
          have hi2 : i2 < tail.length := Nat.lt_of_succ_lt_succ hi
          have heq := ih (k := k + 1) (i := i2) hi2
            (by simpa using hflag)
            (fun j hj hlt => by
              have := hbefore (j + 1) (Nat.succ_lt_succ hj)
                (Nat.succ_lt_succ hlt)
              simpa using this)
          have harith : k + 1 + i2 = k + (i2 + 1) := by omega
          rw [heq, harith]
          rfl

lemma defaultItemOf_of_no_default (menu : List MenuItem)
    (h : ∀ item ∈ menu, item.is_default = false) :
    defaultItemOf menu = 0 := by
  rw [defaultItemOf, List.enum, find?_enumFrom_of_no_default menu 0 h]
  rfl

lemma defaultItemOf_of_first_default (menu : List MenuItem) (i : Nat)
    (hi : i < menu.length)
    (hflag : (menu.get ⟨i, hi⟩).is_default = true)
    (hbefore : ∀ j (hj : j < menu.length), j < i →
      (menu.get ⟨j, hj⟩).is_default = false) :
    defaultItemOf menu = i := by
  rw [defaultItemOf, List.enum,
    find?_enumFrom_of_first_default menu 0 i hi hflag hbefore]
  simp

/-- C5: registering a nav from an empty item list is a construction error
(the `assert!` panic, `none`) rather than producing a nav; otherwise the
nav is appended with `default_item` equal to the position of the first
item flagged default, or `0` when no item is flagged.  The first-flagged
clause settles both of the claim's flagged cases: with exactly one flagged
item it is that item's position, and with several flagged items the first
one wins. -/
theorem C5_default_item (ctx : NavContext) (name : String)
    (menu : List MenuItem) :
    (menu = [] → ctx.nav name menu = none) ∧
    (∀ i (hi : i < menu.length),
      (menu.get ⟨i, hi⟩).is_default = true →
      (∀ j (hj : j < menu.length), j < i →
        (menu.get ⟨j, hj⟩).is_default = false) →
      ctx.nav name menu =
        some
          ({ ctx with
              navs := ctx.navs ++ [{ menu := menu, default_item := i }],
              named_nav_ids := (name, ctx.navs.length) :: ctx.named_nav_ids },
           NavID.index ctx.navs.length)) ∧
    ((∀ item ∈ menu, item.is_default = false) → menu ≠ [] →
      ctx.nav name menu =
        some
          ({ ctx with
              navs := ctx.navs ++ [{ menu := menu, default_item := 0 }],
              named_nav_ids := (name, ctx.navs.length) :: ctx.named_nav_ids },
           NavID.index ctx.navs.length)) := by
  refine ⟨?_, ?_, ?_⟩
  · intro h
    simp [NavContext.nav, h]
  · intro i hi hflag hbefore
    have hne : menu.isEmpty = false := by
      cases menu with
      | nil => exact absurd hi (by simp)
      | cons head tail => rfl
    rw [NavContext.nav]
    simp only [hne, Bool.false_eq_true, if_false,
      defaultItemOf_of_first_default menu i hi hflag hbefore]
  · intro h hne2
    have hne : menu.isEmpty = false := by
      cases menu with
      | nil => exact absurd rfl hne2
      | cons head tail => rfl
    rw [NavContext.nav]
    simp only [hne, Bool.false_eq_true, if_false,
      defaultItemOf_of_no_default menu h]

/-- C5 witness: the two navs actually registered in `core/src/main.rs`.
The "main" menu has no flagged item, so its default index is 0; the "keg"
menu flags both "Launch" (position 1) and "Kill Processes" (position 5),
and the first flagged item wins, so its default index is 1; an empty
registration is refused. -/
theorem C5_default_item_witness :
    (NavContext.empty.nav "empty" [] = none) ∧
    (NavContext.empty.nav "main" mainMenu =
      some
        ({ NavContext.empty with
            navs := [{ menu := mainMenu, default_item := 0 }],
            named_nav_ids := [("main", 0)] },
         NavID.index 0)) ∧
    (NavContext.empty.nav "keg" kegMenu =
      some
        ({ NavContext.empty with
            navs := [{ menu := kegMenu, default_item := 1 }],
            named_nav_ids := [("keg", 0)] },
         NavID.index 0)) := by
  refine ⟨(C5_default_item NavContext.empty "empty" []).1 rfl, ?_, ?_⟩
  · have h := (C5_default_item NavContext.empty "main" mainMenu).2.2
      (by decide) (by decide)
    simpa [NavContext.empty] using h
  · have h := (C5_default_item NavContext.empty "keg" kegMenu).2.1 1
      (by decide) (by decide) (by decide)
    simpa [NavContext.empty] using h

/-! Claims C1 and C7, about `App::execute_nav_action` and
`App::load_view`. -/

/-- The "main" nav as registered (no flagged item, default 0). -/
def mainNav : Nav := { menu := mainMenu, default_item := 0 }

/-- The "keg" nav as registered (first flagged item at position 1). -/
def kegNav : Nav := { menu := kegMenu, default_item := 1 }

/-- The startup context of `core/src/main.rs` after `App::run` pushed the
main nav: both navs registered, stack holding the main nav. -/
def ctxMain : NavContext :=
  { views := 2,
    named_view_ids := [("credits", 1), ("kegs", 0)],
    navs := [mainNav, kegNav],
    named_nav_ids := [("keg", 1), ("main", 0)],
    stack := [NavID.index 0] }

/-- A controller deep in transient state: content focus, a loaded view,
row 4 selected, interaction cursor at 7. -/
def appDeep : App :=
  { app0 with
      focus := Focus.content,
      current_view := some (ViewID.index 0),
      menu_state := 4,
      clickables_state := 7 }

/-- C1 counterexample: with a singleton navigation stack, executing `Pop`
removes the last entry and then `context.top_nav().unwrap()` panics
(`none`) — the controller does not end in the claimed reset state
(`current_view = none`, focus on the menu, selected row at the new top's
default index), because there is no afterwards at all. -/
theorem C1_counterexample :
    ctx1.top_nav = some (NavID.index 0) ∧
    ctx1.stack.length = 1 ∧
    App.execute_nav_action app0 ctx1 NavAction.pop = none :=
  ⟨rfl, rfl, rfl⟩

/-- C1 amended: after a `Push`, or a `Pop` that leaves the stack
non-empty (so that a new top exists and its nav resolves),
`execute_nav_action` returns with `current_view = none`, focus `Menu`, and
the selected row at the new top nav's default item index — regardless of
the prior transient state (the conclusion's record update touches no other
`App` field and `app` is arbitrary).  A `Pop` that removes the last
remaining entry instead panics on `top_nav().unwrap()`
(`C1_counterexample`). -/
theorem C1_reset_on_navigation (app : App) (ctx : NavContext)
    (nav_action : NavAction) (top : NavID) (nav : Nav)
    (htop : (ctx.apply_nav_action nav_action).top_nav = some top)
    (hnav : (ctx.apply_nav_action nav_action).get_nav top = some nav) :
    App.execute_nav_action app ctx nav_action =
      some
        ({ app with
            focus := Focus.menu,
            current_view := none,
            menu_state := nav.default_item },
         ctx.apply_nav_action nav_action) := by
  simp only [App.execute_nav_action, htop, hnav]

/-- C1 witness: pushing the "keg" nav (index 1) over the "main" nav resets
a controller that was deep in content focus; the selected row lands on the
keg nav's default item 1. -/
theorem C1_reset_on_navigation_witness :
    App.execute_nav_action appDeep ctxMain
        (NavAction.push (NavID.index 1)) =
      some
        ({ appDeep with
            focus := Focus.menu,
            current_view := none,
            menu_state := 1 },
         ctxMain.apply_nav_action (NavAction.push (NavID.index 1))) := by
  have h := C1_reset_on_navigation appDeep ctxMain
    (NavAction.push (NavID.index 1)) (NavID.index 1) kegNav
    (by decide) (by decide)
  simpa [kegNav] using h

/-- C7 counterexample: executing a `Push` navigation action with the
interaction cursor at 5 leaves the cursor at 5 — `execute_nav_action`
resets focus and the current view but never touches `clickables_state`, so
the claimed cursor reset to 0 on navigation transitions does not happen. -/
theorem C7_counterexample :
    (App.execute_nav_action { app0 with clickables_state := 5 } ctx1
        (NavAction.push (NavID.index 0))).map
        (fun r => r.1.clickables_state) = some 5 ∧
    ¬ (App.execute_nav_action { app0 with clickables_state := 5 } ctx1
          (NavAction.push (NavID.index 0))).map
          (fun r => r.1.clickables_state) = some 0 :=
  ⟨rfl, by decide⟩

/-- C7 amended: a navigation transition resets focus to `Menu` and clears
the current view but leaves the interaction cursor unchanged; the cursor
is set to 0 only by `load_view` when a view is loaded (which also focuses
the content and sets the current view). -/
theorem C7_cursor_on_navigation (app : App) (ctx : NavContext)
    (nav_action : NavAction) (app2 : App) (ctx2 : NavContext)
    (h : App.execute_nav_action app ctx nav_action = some (app2, ctx2))
    (view_id : ViewID) :
    (app2.clickables_state = app.clickables_state ∧
      app2.focus = Focus.menu ∧
      app2.current_view = none) ∧
    ((app.load_view view_id).clickables_state = 0 ∧
      (app.load_view view_id).focus = Focus.content ∧
      (app.load_view view_id).current_view = some view_id) := by
  refine ⟨?_, rfl, rfl, rfl⟩
  simp only [App.execute_nav_action] at h
  cases htop : (ctx.apply_nav_action nav_action).top_nav with
  | none =>
      simp only [htop] at h
      exact Option.noConfusion h
  | some top =>
      simp only [htop] at h
      cases hnav : (ctx.apply_nav_action nav_action).get_nav top with
      | none =>
          simp only [hnav] at h
          exact Option.noConfusion h
      | some nav =>
          simp only [hnav] at h
          have hpair := Option.some.inj h
          have happ : app2 =
              { app with
                  focus := Focus.menu,
                  current_view := none,
                  menu_state := nav.default_item } :=
            (congrArg Prod.fst hpair).symm
          rw [happ]
          exact ⟨rfl, rfl, rfl⟩

/-- C7 witness: the push of C1's witness keeps the cursor at 7, while
loading the kegs view zeroes it. -/
theorem C7_cursor_on_navigation_witness :
    (({ appDeep with
          focus := Focus.menu,
          current_view := none,
          menu_state := 1 } : App).clickables_state =
        appDeep.clickables_state ∧
      ({ appDeep with
          focus := Focus.menu,
          current_view := none,
          menu_state := 1 } : App).focus = Focus.menu ∧
      ({ appDeep with
          focus := Focus.menu,
          current_view := none,
          menu_state := 1 } : App).current_view = none) ∧
    ((appDeep.load_view (ViewID.index 0)).clickables_state = 0 ∧
      (appDeep.load_view (ViewID.index 0)).focus = Focus.content ∧
      (appDeep.load_view (ViewID.index 0)).current_view =
        some (ViewID.index 0)) :=
  C7_cursor_on_navigation appDeep ctxMain
    (NavAction.push (NavID.index 1))
    { appDeep with
        focus := Focus.menu,
        current_view := none,
        menu_state := 1 }
    (ctxMain.apply_nav_action (NavAction.push (NavID.index 1)))
    (by decide) (ViewID.index 0)

/-! Claims C3 and C10, about `App::handle_key_event` and `App::draw`. -/

/-- A controller with the keybinds modal shown. -/
def appModal : App := { app0 with show_keybinds_modal := true }

/-- C3 counterexample: with the keybinds modal shown, pressing `q` is
swallowed — the handler returns with the app unchanged, the exit flag
still unset and the modal still up — so `q` does not terminate the loop in
every state. -/
theorem C3_counterexample :
    App.handle_key_event gv0 ext0 appModal ctx1 (KeyCode.char 'q') st0 =
      some (StepResult.ok appModal ctx1) ∧
    appModal.exit = false ∧
    appModal.show_keybinds_modal = true :=
  ⟨rfl, rfl, rfl⟩

/-- C3 amended: pressing `q` sets the exit flag whenever the keybinds
modal is hidden (under the handler's own preconditions: a non-empty stack
whose top nav resolves and a selected row within its menu — it dereferences
these before dispatching even for `q`); while the modal is shown, every
key but `Esc` and `?` — `q` included — is swallowed with no state
change. -/
theorem C3_quit_key (gv : ViewID → ViewImpl)
    (ext : Nat → App → AsyncState → App × Option String)
    (ctx : NavContext) (st : AsyncState) (app appm : App)
    (top : NavID) (nav : Nav)
    (hmodal : app.show_keybinds_modal = false)
    (htop : ctx.top_nav = some top)
    (hnav : ctx.get_nav top = some nav)
    (hmenu : app.menu_state < nav.menu.length)
    (hm : appm.show_keybinds_modal = true) :
    App.handle_key_event gv ext app ctx (KeyCode.char 'q') st =
      some (StepResult.ok app.setExit ctx) ∧
    app.setExit.exit = true ∧
    App.handle_key_event gv ext appm ctx (KeyCode.char 'q') st =
      some (StepResult.ok appm ctx) := by
  have hq : ¬(KeyCode.char 'q' = KeyCode.esc ∨
      KeyCode.char 'q' = KeyCode.char '?') := by decide
  refine ⟨?_, rfl, ?_⟩
  · simp [App.handle_key_event, hmodal, htop, hnav,
      List.getElem?_eq_getElem hmenu]
  · simp [App.handle_key_event, hm, hq]

/-- C3 witness: `q` from the startup state exits; `q` with the modal up
does not. -/
theorem C3_quit_key_witness :
    App.handle_key_event gv0 ext0 app0 ctxMain (KeyCode.char 'q') st0 =
      some (StepResult.ok app0.setExit ctxMain) ∧
    app0.setExit.exit = true ∧
    App.handle_key_event gv0 ext0 appModal ctxMain (KeyCode.char 'q') st0 =
      some (StepResult.ok appModal ctxMain) :=
  C3_quit_key gv0 ext0 ctxMain st0 app0 appModal (NavID.index 0) mainNav
    rfl rfl (by decide) (by decide) rfl

/-- C10: with the modal hidden, the key handler dereferences
`context.top_nav().unwrap()` before dispatching on the key, so with an
empty navigation stack every key press — `q` included — panics (`none`);
drawing a frame with an empty stack, by contrast, is total and just clears
the content area. -/
theorem C10_empty_stack (gv : ViewID → ViewImpl)
    (ext : Nat → App → AsyncState → App × Option String)
    (dv : ViewID → Except String Unit)
    (app : App) (ctx : NavContext) (key : KeyCode) (st : AsyncState)
    (hmodal : app.show_keybinds_modal = false)
    (hstack : ctx.stack = []) :
    App.handle_key_event gv ext app ctx key st = none ∧
    App.draw dv app ctx = some (Except.ok DrawOutcome.clearedContentArea) := by
  have htop : ctx.top_nav = none := by
    simp [NavContext.top_nav, hstack]
  constructor
  · simp [App.handle_key_event, hmodal, htop]
  · simp [App.draw, htop]

/-- C10 witness: pressing `q` with an empty stack panics while drawing the
same frame succeeds and clears the content area. -/
theorem C10_empty_stack_witness :
    App.handle_key_event gv0 ext0 app0 NavContext.empty (KeyCode.char 'q')
        st0 = none ∧
    App.draw (fun _ => Except.ok ()) app0 NavContext.empty =
      some (Except.ok DrawOutcome.clearedContentArea) :=
  C10_empty_stack gv0 ext0 (fun _ => Except.ok ()) app0 NavContext.empty
    (KeyCode.char 'q') st0 rfl rfl

/-! Claim C8, about click/hydration failures. -/

/-- C8: when the active view is the kegs view and hydrating the selected
keg fails (its plist cannot be read), the `Enter` press in content focus
propagates the error to the caller of the key handler and applies no
navigation action: the returned state is the very `app` and `ctx` from
before the press — same stack, focus, current view and selected row — with
the error attached.  (`KegsView::click` assigns `current_keg` only after a
successful hydration, so the failing path changes nothing at all.) -/
theorem C8_click_failure_preserves_state (gv : ViewID → ViewImpl)
    (ext : Nat → App → AsyncState → App × Option String)
    (pf : String → Except String KegPlist)
    (app : App) (ctx : NavContext) (st : AsyncState)
    (top : NavID) (nav : Nav) (view_id : ViewID) (keg : Keg) (e : String)
    (hmodal : app.show_keybinds_modal = false)
    (htop : ctx.top_nav = some top)
    (hnav : ctx.get_nav top = some nav)
    (hmenu : app.menu_state < nav.menu.length)
    (hfocus : app.focus = Focus.content)
    (hview : app.current_view = some view_id)
    (hgv : gv view_id = kegsView pf)
    (hkeg : st.kegs.get? app.clickables_state = some keg)
    (herr : pf keg.config_file = Except.error e) :
    App.handle_key_event gv ext app ctx KeyCode.enter st =
      some { app := app, ctx := ctx, error := some e } := by
  have hne : st.kegs.isEmpty = false := by
    cases hks : st.kegs with
    | nil => simp [hks] at hkeg
    | cons head tail => rfl
  have hkeg2 : st.kegs[app.clickables_state]? = some keg := by
    simpa using hkeg
  simp [App.handle_key_event, hmodal, htop, hnav,
    List.getElem?_eq_getElem hmenu, hfocus, hview, hgv, kegsView,
    kegsViewClick, hne, hkeg2, CurrentKeg.try_from, herr]

/-- A concrete discovered keg. -/
def keg0 : Keg :=
  { name := "Game.app",
    enclosing_location := "~/Applications/Kegs",
    config_file := "~/Applications/Kegs/Game.app/Contents/Info.plist",
    wineskin_launcher :=
      "~/Applications/Kegs/Game.app/Contents/MacOS/wineskinLauncher",
    c_drive := "~/Applications/Kegs/Game.app/Contents/SharedSupport/prefix/drive_c",
    log_directory := "~/Applications/Kegs/Game.app/Contents/Logs",
    winetricks_logfile :=
      "~/Applications/Kegs/Game.app/Contents/SharedSupport/Logs/Winetricks.log",
    wine_prefix := "~/Applications/Kegs/Game.app/Contents/SharedSupport/wine/bin" }

/-- A snapshot with one discovered keg. -/
def stK : AsyncState := { kegs := [keg0], engines := [], wrappers := [] }

/-- A plist reader that always fails. -/
def pfFail : String → Except String KegPlist :=
  fun _ => Except.error "invalid plist"

/-- A view table where every id is the kegs view over the failing plist
reader. -/
def gvK : ViewID → ViewImpl := fun _ => kegsView pfFail

/-- The controller with the kegs view loaded and focused. -/
def appContent : App :=
  { app0 with focus := Focus.content, current_view := some (ViewID.index 0) }

/-- C8 witness: `Enter` on the first listed keg, whose plist fails to
parse, leaves the controller exactly as it was and carries the error. -/
theorem C8_click_failure_preserves_state_witness :
    App.handle_key_event gvK ext0 appContent ctxMain KeyCode.enter stK =
      some { app := appContent, ctx := ctxMain,
             error := some "invalid plist" } :=
  C8_click_failure_preserves_state gvK ext0 pfFail appContent ctxMain stK
    (NavID.index 0) mainNav (ViewID.index 0) keg0 "invalid plist"
    rfl rfl (by decide) (by decide) rfl rfl rfl rfl rfl

/-! Claim C4, about the content-focus cursor arithmetic of
`App::handle_key_event`. -/

/-- The new interaction cursor after a `Down` press in content focus, per
the dispatch on the view's interactivity in `handle_key_event`. -/
def downCursor : ViewInteractivity → Nat → Nat
  | ViewInteractivity.none, c => c
  | ViewInteractivity.scrollable, c => c + 3
  | ViewInteractivity.clickables count, c => if c + 1 < count then c + 1 else c

/-- The new interaction cursor after an `Up` press in content focus
(`saturating_sub` is `Nat` subtraction). -/
def upCursor : ViewInteractivity → Nat → Nat
  | ViewInteractivity.none, c => c
  | ViewInteractivity.scrollable, c => c - 3
  | ViewInteractivity.clickables _, c => c - 1

lemma content_down_step (gv : ViewID → ViewImpl)
    (ext : Nat → App → AsyncState → App × Option String)
    (app : App) (ctx : NavContext) (st : AsyncState)
    (top : NavID) (nav : Nav) (view_id : ViewID) (i : ViewInteractivity)
    (hmodal : app.show_keybinds_modal = false)
    (htop : ctx.top_nav = some top)
    (hnav : ctx.get_nav top = some nav)
    (hmenu : app.menu_state < nav.menu.length)
    (hfocus : app.focus = Focus.content)
    (hview : app.current_view = some view_id)
    (hint : (gv view_id).interactivity app st = Except.ok i) :
    App.handle_key_event gv ext app ctx KeyCode.down st =
      some (StepResult.ok
        { app with clickables_state := downCursor i app.clickables_state }
        ctx) := by
  obtain ⟨x1, f1, m1, v1, c1, k1, g1, b1⟩ := app
  simp only at hmodal hfocus hview hmenu
  subst hmodal hfocus hview
  cases i with
  | none =>
      simp [App.handle_key_event, htop, hnav,
        List.getElem?_eq_getElem hmenu, hint, downCursor]
  | scrollable =>
      simp [App.handle_key_event, htop, hnav,
        List.getElem?_eq_getElem hmenu, hint, downCursor]
  | clickables count =>
      by_cases hc : c1 + 1 < count
      · simp [App.handle_key_event, htop, hnav,
          List.getElem?_eq_getElem hmenu, hint, downCursor, hc]
      · simp [App.handle_key_event, htop, hnav,
          List.getElem?_eq_getElem hmenu, hint, downCursor, hc]

lemma content_up_step (gv : ViewID → ViewImpl)
    (ext : Nat → App → AsyncState → App × Option String)
    (app : App) (ctx : NavContext) (st : AsyncState)
    (top : NavID) (nav : Nav) (view_id : ViewID) (i : ViewInteractivity)
    (hmodal : app.show_keybinds_modal = false)
    (htop : ctx.top_nav = some top)
    (hnav : ctx.get_nav top = some nav)
    (hmenu : app.menu_state < nav.menu.length)
    (hfocus : app.focus = Focus.content)
    (hview : app.current_view = some view_id)
    (hint : (gv view_id).interactivity app st = Except.ok i) :
    App.handle_key_event gv ext app ctx KeyCode.up st =
      some (StepResult.ok
        { app with clickables_state := upCursor i app.clickables_state }
        ctx) := by
  obtain ⟨x1, f1, m1, v1, c1, k1, g1, b1⟩ := app
  simp only at hmodal hfocus hview hmenu
  subst hmodal hfocus hview
  cases i with
  | none =>
      simp [App.handle_key_event, htop, hnav,
        List.getElem?_eq_getElem hmenu, hint, upCursor]
  | scrollable =>
      simp [App.handle_key_event, htop, hnav,
        List.getElem?_eq_getElem hmenu, hint, upCursor]
  | clickables count =>
      simp [App.handle_key_event, htop, hnav,
        List.getElem?_eq_getElem hmenu, hint, upCursor]

/-- The app after one key press, as `App::run`'s loop keeps it.  Under the
hypotheses of the cursor theorems the handler always returns; the `none`
(panic) arm maps to the unchanged app only to keep the function total. -/
def pressKey (gv : ViewID → ViewImpl)
    (ext : Nat → App → AsyncState → App × Option String)
    (ctx : NavContext) (st : AsyncState) (key : KeyCode) (app : App) :
    App :=
  match App.handle_key_event gv ext app ctx key st with
  | some r => r.app
  | none => app

lemma pressKey_down_iterate (gv : ViewID → ViewImpl)
    (ext : Nat → App → AsyncState → App × Option String)
    (ctx : NavContext) (st : AsyncState)
    (top : NavID) (nav : Nav) (view_id : ViewID) (i : ViewInteractivity)
    (htop : ctx.top_nav = some top)
    (hnav : ctx.get_nav top = some nav)
    (hint : ∀ a : App, (gv view_id).interactivity a st = Except.ok i) :
    ∀ (k : Nat) (app : App), app.show_keybinds_modal = false →
      app.menu_state < nav.menu.length → app.focus = Focus.content →
      app.current_view = some view_id →
      (pressKey gv ext ctx st KeyCode.down)^[k] app =
        { app with
            clickables_state := (downCursor i)^[k] app.clickables_state } := by
  intro k
  induction k with
  | zero => intro app _ _ _ _; simp
  | succ k ih =>
      intro app hmodal hmenu hfocus hview
      rw [Function.iterate_succ_apply]
      have hpress : pressKey gv ext ctx st KeyCode.down app =
          { app with
              clickables_state := downCursor i app.clickables_state } := by
        simp only [pressKey]
        rw [content_down_step gv ext app ctx st top nav view_id i hmodal
          htop hnav hmenu hfocus hview (hint app)]
        rfl
      rw [hpress]
      rw [ih { app with
          clickables_state := downCursor i app.clickables_state }
        hmodal hmenu hfocus hview]
      simp [Function.iterate_succ_apply]

lemma pressKey_up_iterate (gv : ViewID → ViewImpl)
    (ext : Nat → App → AsyncState → App × Option String)
    (ctx : NavContext) (st : AsyncState)
    (top : NavID) (nav : Nav) (view_id : ViewID) (i : ViewInteractivity)
    (htop : ctx.top_nav = some top)
    (hnav : ctx.get_nav top = some nav)
    (hint : ∀ a : App, (gv view_id).interactivity a st = Except.ok i) :
    ∀ (k : Nat) (app : App), app.show_keybinds_modal = false →
      app.menu_state < nav.menu.length → app.focus = Focus.content →
      app.current_view = some view_id →
      (pressKey gv ext ctx st KeyCode.up)^[k] app =
        { app with
            clickables_state := (upCursor i)^[k] app.clickables_state } := by
  intro k
  induction k with
  | zero => intro app _ _ _ _; simp
  | succ k ih =>
      intro app hmodal hmenu hfocus hview
      rw [Function.iterate_succ_apply]
      have hpress : pressKey gv ext ctx st KeyCode.up app =
          { app with
              clickables_state := upCursor i app.clickables_state } := by
        simp only [pressKey]
        rw [content_up_step gv ext app ctx st top nav view_id i hmodal
          htop hnav hmenu hfocus hview (hint app)]
        rfl
      rw [hpress]
      rw [ih { app with
          clickables_state := upCursor i app.clickables_state }
        hmodal hmenu hfocus hview]
      simp [Function.iterate_succ_apply]

lemma downCursor_clickables_le (n : Nat) :
    ∀ (k c : Nat), c ≤ n - 1 →
      (downCursor (ViewInteractivity.clickables n))^[k] c ≤ n - 1 := by
  intro k
  induction k with
  | zero => intro c h; simpa using h
  | succ k ih =>
      intro c h
      rw [Function.iterate_succ_apply]
      refine ih _ ?_
      simp only [downCursor]
      split <;> omega

lemma upCursor_clickables_iterate (n : Nat) :
    ∀ (k c : Nat),
      (upCursor (ViewInteractivity.clickables n))^[k] c = c - k := by
  intro k
  induction k with
  | zero => intro c; simp
  | succ k ih =>
      intro c
      rw [Function.iterate_succ_apply]
      simp only [upCursor]
      rw [ih]
      omega

/-- C4: in content focus, with the active view's interactivity fixed at
`i` for the current snapshot, the cursor obeys the claim: for
`Clickables n` with `n ≥ 1`, any number `k` of `Down` presses from cursor
0 leaves it at most `n - 1`, and `k` `Up` presses from any position leave
it at `cursor - k` in ℕ — saturating at 0, hence never below 0; for
`None` a press leaves the whole controller unchanged; for `Scrollable` a
`Down` press moves the cursor up by exactly 3 and an `Up` press moves it
down by 3, saturating at 0 (ℕ subtraction). -/
theorem C4_cursor_clamping (gv : ViewID → ViewImpl)
    (ext : Nat → App → AsyncState → App × Option String)
    (ctx : NavContext) (st : AsyncState) (app : App)
    (top : NavID) (nav : Nav) (view_id : ViewID) (i : ViewInteractivity)
    (k n : Nat)
    (hmodal : app.show_keybinds_modal = false)
    (htop : ctx.top_nav = some top)
    (hnav : ctx.get_nav top = some nav)
    (hmenu : app.menu_state < nav.menu.length)
    (hfocus : app.focus = Focus.content)
    (hview : app.current_view = some view_id)
    (hint : ∀ a : App, (gv view_id).interactivity a st = Except.ok i) :
    (i = ViewInteractivity.clickables n → 1 ≤ n →
      app.clickables_state = 0 →
      ((pressKey gv ext ctx st KeyCode.down)^[k] app).clickables_state ≤
        n - 1) ∧
    (i = ViewInteractivity.clickables n →
      ((pressKey gv ext ctx st KeyCode.up)^[k] app).clickables_state =
        app.clickables_state - k) ∧
    (i = ViewInteractivity.none →
      pressKey gv ext ctx st KeyCode.down app = app ∧
      pressKey gv ext ctx st KeyCode.up app = app) ∧
    (i = ViewInteractivity.scrollable →
      (pressKey gv ext ctx st KeyCode.down app).clickables_state =
          app.clickables_state + 3 ∧
      (pressKey gv ext ctx st KeyCode.up app).clickables_state =
          app.clickables_state - 3) := by
  have hdown := pressKey_down_iterate gv ext ctx st top nav view_id i
    htop hnav hint
  have hup := pressKey_up_iterate gv ext ctx st top nav view_id i
    htop hnav hint
  refine ⟨?_, ?_, ?_, ?_⟩
  · intro hi _ h0
    subst hi
    rw [hdown k app hmodal hmenu hfocus hview]
    simpa [h0] using downCursor_clickables_le n k 0 (Nat.zero_le _)
  · intro hi
    subst hi
    rw [hup k app hmodal hmenu hfocus hview]
    simp [upCursor_clickables_iterate]
  · intro hi
    subst hi
    have h1 := hdown 1 app hmodal hmenu hfocus hview
    have h2 := hup 1 app hmodal hmenu hfocus hview
    simp only [Function.iterate_one] at h1 h2
    constructor
    · rw [h1]; simp [downCursor]
    · rw [h2]; simp [upCursor]
  · intro hi
    subst hi
    have h1 := hdown 1 app hmodal hmenu hfocus hview
    have h2 := hup 1 app hmodal hmenu hfocus hview
    simp only [Function.iterate_one] at h1 h2
    constructor
    · rw [h1]; simp [downCursor]
    · rw [h2]; simp [upCursor]

/-- A snapshot with three discovered kegs, matching the spec's scenario. -/
def st3 : AsyncState := { kegs := [keg0, keg0, keg0], engines := [],
                          wrappers := [] }

/-- A view table whose every entry is the kegs view over an always-failing
plist reader (its `interactivity` does not consult the reader). -/
def gv3 : ViewID → ViewImpl := fun _ => kegsView pfFail

/-- A synthetic scrolling view used only as an environment in witnesses. -/
def scrollStubView : ViewImpl :=
  { interactivity := fun _ _ => Except.ok ViewInteractivity.scrollable,
    click := fun app _ _ => some (app, Except.ok none) }

/-- The scrolling view table. -/
def gvScroll : ViewID → ViewImpl := fun _ => scrollStubView

/-- C4 witness: the kegs view reports `Clickables 3` for a 3-keg snapshot;
five `Down` presses from cursor 0 stay at most 2, five `Up` presses from 0
stay at 0; and a scrollable view moves by exactly 3. -/
theorem C4_cursor_clamping_witness :
    ((pressKey gv3 ext0 ctxMain st3 KeyCode.down)^[5]
        appContent).clickables_state ≤ 3 - 1 ∧
    ((pressKey gv3 ext0 ctxMain st3 KeyCode.up)^[5]
        appContent).clickables_state = appContent.clickables_state - 5 ∧
    (pressKey gvScroll ext0 ctxMain st3 KeyCode.down
        appContent).clickables_state = appContent.clickables_state + 3 := by
  have h := C4_cursor_clamping gv3 ext0 ctxMain st3 appContent
    (NavID.index 0) mainNav (ViewID.index 0)
    (ViewInteractivity.clickables 3) 5 3
    rfl rfl (by decide) (by decide) rfl rfl (fun a => rfl)
  have h2 := C4_cursor_clamping gvScroll ext0 ctxMain st3 appContent
    (NavID.index 0) mainNav (ViewID.index 0)
    ViewInteractivity.scrollable 1 0
    rfl rfl (by decide) (by decide) rfl rfl (fun a => rfl)
  exact ⟨h.1 rfl (by decide) rfl, h.2.1 rfl, (h2.2.2.2 rfl).1⟩

/-! Claim C2, about the render tick's use of the shared snapshot lock. -/

/-- C2 counterexample: `App::run` guards each tick with
`if let Ok(state) = state.read()` — the blocking `RwLock::read`.  While
the background worker holds the write lock, the tick therefore blocks
until the writer releases it, instead of the claimed behaviour of
attempting a non-blocking read, skipping the re-render and still
processing that tick's input. -/
theorem C2_counterexample :
    runTickSnapshotAccess LockState.writerHeld =
      TickBehavior.blocksUntilWriterReleases ∧
    claimedTickSnapshotAccess LockState.writerHeld =
      TickBehavior.skipsRenderStillHandlesInput ∧
    runTickSnapshotAccess LockState.writerHeld ≠
      claimedTickSnapshotAccess LockState.writerHeld := by
  refine ⟨rfl, rfl, ?_⟩
  decide

/-- C2 amended: the non-blocking, skip-on-contention discipline exists
only on the writer side — the worker publishes with `try_write` and keeps
the old snapshot on contention.  The render tick reads with the blocking
`read()`: it renders and handles input when the lock is acquired, blocks
for as long as a writer holds the lock, and on a failed (`Err`, poisoned)
read silently skips both the render and the input handling of that tick. -/
theorem C2_snapshot_locking (st old fresh : AsyncState) :
    runTickSnapshotAccess (LockState.free st) =
      TickBehavior.rendersAndHandlesInput st ∧
    runTickSnapshotAccess LockState.writerHeld =
      TickBehavior.blocksUntilWriterReleases ∧
    runTickSnapshotAccess LockState.poisoned =
      TickBehavior.skipsRenderAndInput ∧
    workerPublish WriteLockState.available old fresh = fresh ∧
    workerPublish WriteLockState.readerHeld old fresh = old :=
  ⟨rfl, rfl, rfl, rfl, rfl⟩

end Kegtui
